import Mathlib

/-!
Verification development for the a101-ai-trader repository.

Part 1 embeds the risk-gated command execution pipeline (Risk Decision
Engine, Daily Usage Ledger, Confirmation Registry, Execution Dispatcher).
The pipeline's backend source is not part of the checked-out sources, so
these definitions are modelled from the specification document, as noted
on each definition.

Part 2 embeds the frontend handlers that ARE in the sources:
`handleCommandSubmit` and the response-driven refresh guard in
`src/frontend/src/app/page.tsx`, `CommandInput.handleSubmit`, and
`ApiKeysModal.handleSave` in `src/frontend/src/components/ApiKeysModal.tsx`.

The theorems at the end settle the frozen claims C1..C10.
-/

namespace A101

/-- Closed enumeration of intent actions (spec §3 data model). -/
inductive Action where
  | open_long
  | open_short
  | close
  | set_leverage
  | query
  deriving DecidableEq

/-- Modelled from the spec: TradeIntent (§3) — immutable value produced by the
intent extractor; `notional` and `leverage` are optional. -/
structure TradeIntent where
  action : Action
  symbol : String
  notional : Option ℚ
  leverage : Option ℚ
  raw_text : String
  deriving DecidableEq

/-- Modelled from the spec: LimitConfiguration (§3) — static policy values. -/
structure LimitConfiguration where
  max_single_trade : ℚ
  max_leverage : ℚ
  confirm_threshold : ℚ
  max_daily_trades : ℕ
  max_daily_loss : ℚ
  deriving DecidableEq

/-- Modelled from the spec: a Daily Usage Ledger entry for one account
(§3, §4.2) — per-day counters with the UTC day they belong to. -/
structure LedgerEntry where
  trades_executed : ℕ
  realized_loss : ℚ
  day : ℕ
  deriving DecidableEq

/-- Modelled from the spec: lazy day-boundary rollover (§4.2) — on access,
if the stored day differs from the current UTC date, both counters reset. -/
def rollover (today : ℕ) (e : LedgerEntry) : LedgerEntry :=
  if e.day = today then e else { trades_executed := 0, realized_loss := 0, day := today }

/-- Modelled from the spec: `record_execution` (§4.2) — increments
`trades_executed` by one always and `realized_loss` by `max 0 (-delta)`
(losses only; gains leave the accumulator unchanged). -/
def record_execution (today : ℕ) (e : LedgerEntry) (realized_pnl_delta : ℚ) : LedgerEntry :=
  let e0 := rollover today e
  { trades_executed := e0.trades_executed + 1
    realized_loss := e0.realized_loss + max 0 (-realized_pnl_delta)
    day := e0.day }

/-- Intent signature (§3): action+symbol+notional+leverage. -/
structure Signature where
  action : Action
  symbol : String
  notional : Option ℚ
  leverage : Option ℚ
  deriving DecidableEq

def signatureOf (i : TradeIntent) : Signature :=
  { action := i.action, symbol := i.symbol, notional := i.notional, leverage := i.leverage }

/-- Modelled from the spec: PendingConfirmation (§3) — the original intent
plus a creation timestamp. -/
structure PendingConfirmation where
  intent : TradeIntent
  created_at : ℕ
  deriving DecidableEq

/-- Registry key: (account, intent signature). -/
abbrev RegKey := String × Signature

/-- Modelled from the spec: the Confirmation Registry (§3, §4.3) as a keyed
store, embedded as an association list with at most one entry per key. -/
abbrev Registry := List (RegKey × PendingConfirmation)

def lookupKey (R : Registry) (k : RegKey) : Option PendingConfirmation :=
  (R.find? (fun p => decide (p.1 = k))).map (fun p => p.2)

def removeKey (R : Registry) (k : RegKey) : Registry :=
  R.filter (fun p => decide (p.1 ≠ k))

/-- Modelled from the spec: `put` (§4.3) — upsert, a new identical request
refreshes rather than duplicates the entry. -/
def put (R : Registry) (k : RegKey) (v : PendingConfirmation) : Registry :=
  removeKey R k ++ [(k, v)]

/-- Modelled from the spec: `take` (§4.3) — atomically checks existence and
time-to-live and removes the entry; returns absent if missing or expired,
and an expired entry is removed as a side effect of the failed lookup. -/
def take (R : Registry) (k : RegKey) (now ttl : ℕ) : Option PendingConfirmation × Registry :=
  match lookupKey R k with
  | none => (none, R)
  | some e => if now - e.created_at ≤ ttl then (some e, removeKey R k) else (none, removeKey R k)

/-- Decision outcomes (§3). -/
inductive RiskOutcome where
  | approved
  | requiresConfirmation
  | rejected
  deriving DecidableEq

/-- Fixed set of reason codes (§7). -/
inductive ReasonCode where
  | TradeSizeExceeded
  | LeverageExceeded
  | DailyTradeCountExceeded
  | DailyLossExceeded
  | ConfirmationRequired
  | InvalidIntent
  deriving DecidableEq

/-- Modelled from the spec: RiskDecision (§3) — outcome, reason, echoed intent. -/
structure RiskDecision where
  outcome : RiskOutcome
  reason : Option ReasonCode
  intent : TradeIntent
  deriving DecidableEq

def isOpen : Action → Bool
  | .open_long => true
  | .open_short => true
  | _ => false

/-- Position-changing actions for the daily gates: open and close.  Per the
spec's edge-case policy (§4.1), `set_leverage` alone is exempt from the
daily-loss and daily-trade-count gates, and queries never reach them. -/
def isPositionChanging : Action → Bool
  | .open_long => true
  | .open_short => true
  | .close => true
  | _ => false

/-- Rule 2 guard (§4.1). -/
def lossGate (cfg : LimitConfiguration) (ledger : LedgerEntry) (a : Action) : Bool :=
  isPositionChanging a && decide (cfg.max_daily_loss ≤ ledger.realized_loss)

/-- Rule 3 guard (§4.1). -/
def countGate (cfg : LimitConfiguration) (ledger : LedgerEntry) (a : Action) : Bool :=
  isPositionChanging a && decide (cfg.max_daily_trades ≤ ledger.trades_executed)

/-- Rule 4 guard (§4.1): `set_leverage`, or leverage present on an open
action, with the leverage above the ceiling.  `close` is exempt (§4.1 edge
case policy). -/
def leverageViolation (cfg : LimitConfiguration) (i : TradeIntent) : Bool :=
  (decide (i.action = .set_leverage) || isOpen i.action) &&
    (match i.leverage with
     | some l => decide (cfg.max_leverage < l)
     | none => false)

/-- Rule 5 guard (§4.1): notional present on an open action and strictly
above the hard ceiling (the ceiling itself is allowed, §4.1 tie-break). -/
def sizeViolation (cfg : LimitConfiguration) (i : TradeIntent) : Bool :=
  isOpen i.action &&
    (match i.notional with
     | some n => decide (cfg.max_single_trade < n)
     | none => false)

/-- Rule 6 guard (§4.1): notional present on an open action and at or above
the confirmation threshold (the floor is inclusive, §4.1 tie-break). -/
def confirmGate (cfg : LimitConfiguration) (i : TradeIntent) : Bool :=
  isOpen i.action &&
    (match i.notional with
     | some n => decide (cfg.confirm_threshold ≤ n)
     | none => false)

/-- Modelled from the spec: the Risk Decision Engine's `evaluate` (§4.1) —
rules 1–7 in order, first failing rule decides; registry is written on the
RequiresConfirmation upsert and on the confirmed consume. -/
def evaluate (cfg : LimitConfiguration) (ttl : ℕ) (ledger : LedgerEntry)
    (registry : Registry) (account : String) (intent : TradeIntent)
    (confirm : Bool) (now : ℕ) : RiskDecision × Registry :=
  if intent.action = .query then
    ({ outcome := .approved, reason := none, intent := intent }, registry)
  else if lossGate cfg ledger intent.action then
    ({ outcome := .rejected, reason := some .DailyLossExceeded, intent := intent }, registry)
  else if countGate cfg ledger intent.action then
    ({ outcome := .rejected, reason := some .DailyTradeCountExceeded, intent := intent }, registry)
  else if leverageViolation cfg intent then
    ({ outcome := .rejected, reason := some .LeverageExceeded, intent := intent }, registry)
  else if sizeViolation cfg intent then
    ({ outcome := .rejected, reason := some .TradeSizeExceeded, intent := intent }, registry)
  else if confirmGate cfg intent then
    if confirm then
      match take registry (account, signatureOf intent) now ttl with
      | (some _, R1) => ({ outcome := .approved, reason := none, intent := intent }, R1)
      | (none, R1) =>
          ({ outcome := .requiresConfirmation, reason := some .ConfirmationRequired, intent := intent },
            put R1 (account, signatureOf intent) { intent := intent, created_at := now })
    else
      ({ outcome := .requiresConfirmation, reason := some .ConfirmationRequired, intent := intent },
        put registry (account, signatureOf intent) { intent := intent, created_at := now })
  else
    ({ outcome := .approved, reason := none, intent := intent }, registry)

/-- Outcome reported by the external execution adapter (§4.4): a fill with a
realized P&L delta, or a failure with error detail. -/
inductive AdapterResult where
  | success (realized_pnl_delta : ℚ)
  | failure (detail : String)
  deriving DecidableEq

/-- Execution outcome recorded in the audit trail (§3, §4.4). -/
inductive ExecOutcome where
  | success
  | failure (detail : String)
  deriving DecidableEq

/-- Modelled from the spec: AuditRecord (§3) — immutable, append-only. -/
structure AuditRecord where
  timestamp : ℕ
  account : String
  intent : TradeIntent
  decision : RiskDecision
  outcome : ExecOutcome
  deriving DecidableEq

inductive ExecutionResult where
  | executed
  | failed (detail : String)
  deriving DecidableEq

/-- Modelled from the spec: the Execution Dispatcher's `execute` (§4.4) —
on adapter success record the execution in the ledger and audit Success;
on adapter failure append a Failure audit record and do not touch the
ledger. -/
def execute (today : ℕ) (account : String) (decision : RiskDecision)
    (adapter : AdapterResult) (ledger : LedgerEntry) (audit : List AuditRecord)
    (now : ℕ) : LedgerEntry × List AuditRecord × ExecutionResult :=
  match adapter with
  | .success pnl =>
      (record_execution today ledger pnl,
        audit ++ [{ timestamp := now, account := account, intent := decision.intent,
                    decision := decision, outcome := .success }], .executed)
  | .failure d =>
      (ledger,
        audit ++ [{ timestamp := now, account := account, intent := decision.intent,
                    decision := decision, outcome := .failure d }], .failed d)

/-- Ledger operations observable in one account's day (§4.2): a read (which
performs the lazy rollover) or a recorded execution. -/
inductive LedgerOp where
  | record (delta : ℚ)
  | get

def applyOp (today : ℕ) (e : LedgerEntry) : LedgerOp → LedgerEntry
  | .record delta => record_execution today e delta
  | .get => rollover today e

def runOps (today : ℕ) (e : LedgerEntry) (ops : List LedgerOp) : LedgerEntry :=
  ops.foldl (applyOp today) e

/-- A caller command: the extracted intent plus the confirm flag (§6). -/
structure Command where
  intent : TradeIntent
  confirm : Bool

inductive CommandOutcome where
  | executed
  | needsConfirmation
  | rejectedWith (r : Option ReasonCode)
  deriving DecidableEq

/-- Modelled from the spec: one atomic decide-and-reserve step per command
(§5) — evaluate under the account lock and, on approval, dispatch with a
successful adapter fill of zero realized P&L. -/
def processCommand (cfg : LimitConfiguration) (ttl today now : ℕ) (account : String)
    (st : LedgerEntry × Registry) (c : Command) : (LedgerEntry × Registry) × CommandOutcome :=
  let r := evaluate cfg ttl st.1 st.2 account c.intent c.confirm now
  match r.1.outcome with
  | .approved => ((record_execution today st.1 0, r.2), .executed)
  | .requiresConfirmation => ((st.1, r.2), .needsConfirmation)
  | .rejected => ((st.1, r.2), .rejectedWith r.1.reason)

/-- Modelled from the spec: an interleaving of N concurrent same-account
commands is, under the per-account lock discipline (§5), some sequential
order of their atomic decide-and-reserve steps. -/
def runCommands (cfg : LimitConfiguration) (ttl today now : ℕ) (account : String) :
    LedgerEntry × Registry → List Command → (LedgerEntry × Registry) × List CommandOutcome
  | st, [] => (st, [])
  | st, c :: cs =>
      let p := processCommand cfg ttl today now account st c
      let rest := runCommands cfg ttl today now account p.1 cs
      (rest.1, p.2 :: rest.2)

/-- An Approved-eligible position-changing command (§5, §8): it would be
Approved were the daily gates not tripped — position-changing action, any
leverage within the ceiling, and any notional on an open action below the
confirmation threshold. -/
def eligibleCommand (cfg : LimitConfiguration) (c : Command) : Prop :=
  isPositionChanging c.intent.action = true ∧
  (∀ l, c.intent.leverage = some l → l ≤ cfg.max_leverage) ∧
  (∀ n, c.intent.notional = some n → isOpen c.intent.action = true → n < cfg.confirm_threshold)

/-- The example limits of §8: `max_single_trade=1000`, `max_leverage=20`,
`confirm_threshold=500`, `max_daily_trades=50`, `max_daily_loss=5000`. -/
def exampleLimits : LimitConfiguration :=
  { max_single_trade := 1000, max_leverage := 20, confirm_threshold := 500,
    max_daily_trades := 50, max_daily_loss := 5000 }

/-- Scenario (2) of §8: `open_long BTC notional=700 leverage=5`. -/
def exampleIntent700 : TradeIntent :=
  { action := .open_long, symbol := "BTCUSDT", notional := some 700,
    leverage := some 5, raw_text := "open long BTC 700" }

def examplePending700 : PendingConfirmation :=
  { intent := exampleIntent700, created_at := 0 }

def exampleRegistry700 : Registry :=
  [(("acct-1", signatureOf exampleIntent700), examplePending700)]

/-- Scenario (1) of §8: `open_long BTC notional=100 leverage=10`. -/
def exampleIntent100 : TradeIntent :=
  { action := .open_long, symbol := "BTCUSDT", notional := some 100,
    leverage := some 10, raw_text := "open long BTC 100" }

def exampleCommand100 : Command := { intent := exampleIntent100, confirm := false }

/-- The §8 limits with the daily-trade budget tightened to two, for the
concurrency admission witness. -/
def tightLimits : LimitConfiguration :=
  { max_single_trade := 1000, max_leverage := 20, confirm_threshold := 500,
    max_daily_trades := 2, max_daily_loss := 5000 }

/-! ## Part 2: frontend handlers (embedded from the sources) -/

/-- ApiKeys, from `src/frontend/src/components/ApiKeysModal.tsx`. -/
structure ApiKeys where
  aster_api_key : String
  aster_api_secret : String
  openai_api_key : String
  qwen_api_key : Option String
  deepseek_api_key : Option String
  deriving DecidableEq

/-- Body of the POST to the command endpoint, from `handleCommandSubmit` in
`src/frontend/src/app/page.tsx` lines 126–136. -/
structure CommandRequest where
  command : String
  confirm : Bool
  api_keys : Option ApiKeys
  deriving DecidableEq

def isWhite (c : Char) : Bool := c = ' ' || c = '\t' || c = '\n' || c = '\r'

def dropLeadingWhite : List Char → List Char
  | [] => []
  | c :: cs => if isWhite c then dropLeadingWhite cs else c :: cs

/-- JavaScript `String.prototype.trim`: strip whitespace from both ends. -/
def jsTrim (s : String) : String :=
  String.mk (dropLeadingWhite (dropLeadingWhite s.toList.reverse).reverse)

/-- `CommandInput.handleSubmit` (components/CommandInput): when the trimmed
command is non-empty and not loading, calls `onSubmit(command)` — with NO
second argument, embedded as `none` for the optional confirm parameter. -/
def CommandInput.handleSubmit (command : String) (isLoading : Bool) :
    Option (String × Option Bool) :=
  if jsTrim command ≠ "" ∧ isLoading = false then some (command, none) else none

/-- The request body built by `handleCommandSubmit(command, confirm = false)`
in `page.tsx`: a missing confirm argument defaults to `false`. -/
def requestBody (command : String) (confirm : Option Bool) (apiKeys : Option ApiKeys) :
    CommandRequest :=
  { command := command, confirm := confirm.getD false, api_keys := apiKeys }

/-- The request that a submission through the command input produces:
`CommandInput.handleSubmit` feeding `handleCommandSubmit`. -/
def commandInputRequest (command : String) (isLoading : Bool) (apiKeys : Option ApiKeys) :
    Option CommandRequest :=
  (CommandInput.handleSubmit command isLoading).map (fun p => requestBody p.1 p.2 apiKeys)

def listStarts : List Char → List Char → Bool
  | _, [] => true
  | [], _ :: _ => false
  | c :: cs, d :: ds => decide (c = d) && listStarts cs ds

def listHasSub : List Char → List Char → Bool
  | _, [] => true
  | [], _ :: _ => false
  | c :: cs, sub => listStarts (c :: cs) sub || listHasSub cs sub

/-- JavaScript `String.prototype.includes`: substring containment. -/
def jsIncludes (s sub : String) : Bool := listHasSub s.toList sub.toList

/-- Echoed intent inside the command response (`data.intent`); the action
field may be absent. -/
structure IntentEcho where
  action : Option String
  deriving DecidableEq

/-- The fields of the command response that `handleCommandSubmit` reads. -/
structure CommandResponse where
  success : Bool
  message : String
  needs_confirmation : Option Bool
  intent : Option IntentEcho
  deriving DecidableEq

/-- `data.intent?.action?.includes(sub)` with optional chaining: a missing
intent or action is `undefined`, which is falsy. -/
def intentActionIncludes (d : CommandResponse) (sub : String) : Bool :=
  match d.intent with
  | some i =>
      match i.action with
      | some a => jsIncludes a sub
      | none => false
  | none => false

/-- A chat message as kept in the `messages` state of `page.tsx`. -/
structure Message where
  msgType : String
  content : String
  success : Option Bool
  needsConfirmation : Option Bool
  deriving DecidableEq

def botMessageOf (d : CommandResponse) : Message :=
  { msgType := "bot", content := d.message, success := some d.success,
    needsConfirmation := d.needs_confirmation }

/-- The response-processing tail of `handleCommandSubmit` (`page.tsx` lines
138–158): append the bot message, then schedule the positions/balance
reload when `data.success && data.intent?.action?.includes('open') ||
data.intent?.action?.includes('close')` — JavaScript gives `&&` a higher
precedence than `||`. -/
def handleCommandResponse (msgs : List Message) (d : CommandResponse) :
    List Message × Bool :=
  (msgs ++ [botMessageOf d],
    (d.success && intentActionIncludes d "open") || intentActionIncludes d "close")

/-- Page-level state touched by saving API keys: the stored keys
(`apiKeys`, set by `handleSaveApiKeys` via `onSave`) and whether the modal
is open (`showApiKeysModal`, cleared by `onClose`). -/
structure ModalState where
  storedKeys : Option ApiKeys
  isOpen : Bool
  deriving DecidableEq

/-- JavaScript `a || b` on strings: the empty string is falsy. -/
def jsOrS (a b : String) : String := if a = "" then b else a

/-- `ApiKeysModal.handleSave` (ApiKeysModal.tsx lines 43–60): resolve each
AsterDEX credential as `field || currentKeys?.field || ''`; when either
resolves empty, alert and return (no `onSave`, no `onClose`); otherwise
call `onSave` with the assembled keys and close the modal. Returns the new
page state and the argument passed to `onSave` (or `none`). -/
def ApiKeysModal.handleSave
    (asterApiKey asterApiSecret openaiApiKey qwenApiKey deepseekApiKey : String)
    (currentKeys : Option ApiKeys) (st : ModalState) : ModalState × Option ApiKeys :=
  let finalAsterKey :=
    jsOrS asterApiKey (jsOrS ((currentKeys.map (fun k => k.aster_api_key)).getD "") "")
  let finalAsterSecret :=
    jsOrS asterApiSecret (jsOrS ((currentKeys.map (fun k => k.aster_api_secret)).getD "") "")
  if finalAsterKey = "" ∨ finalAsterSecret = "" then
    (st, none)
  else
    let keys : ApiKeys :=
      { aster_api_key := finalAsterKey, aster_api_secret := finalAsterSecret,
        openai_api_key := openaiApiKey, qwen_api_key := some qwenApiKey,
        deepseek_api_key := some deepseekApiKey }
    ({ storedKeys := some keys, isOpen := false }, some keys)

/-! ## Theorems -/

theorem isOpen_ne_query {a : Action} (h : isOpen a = true) : ¬ a = .query := by
  cases a <;> simp_all [isOpen]

theorem isPositionChanging_ne_query {a : Action} (h : isPositionChanging a = true) :
    ¬ a = .query := by
  cases a <;> simp_all [isPositionChanging]

theorem lossGate_false {cfg : LimitConfiguration} {ledger : LedgerEntry} (a : Action)
    (h : ledger.realized_loss < cfg.max_daily_loss) : lossGate cfg ledger a = false := by
  unfold lossGate
  rw [decide_eq_false (not_le.mpr h)]
  simp

theorem countGate_false {cfg : LimitConfiguration} {ledger : LedgerEntry} (a : Action)
    (h : ledger.trades_executed < cfg.max_daily_trades) : countGate cfg ledger a = false := by
  unfold countGate
  rw [decide_eq_false (not_le.mpr h)]
  simp

theorem countGate_true {cfg : LimitConfiguration} {ledger : LedgerEntry} {a : Action}
    (hpc : isPositionChanging a = true)
    (h : cfg.max_daily_trades ≤ ledger.trades_executed) : countGate cfg ledger a = true := by
  unfold countGate
  rw [hpc, decide_eq_true h]
  rfl

theorem leverageViolation_false {cfg : LimitConfiguration} {i : TradeIntent}
    (h : ∀ l, i.leverage = some l → l ≤ cfg.max_leverage) :
    leverageViolation cfg i = false := by
  unfold leverageViolation
  cases hl : i.leverage with
  | none => simp
  | some l =>
    have hd : decide (cfg.max_leverage < l) = false := decide_eq_false (not_lt.mpr (h l hl))
    simp [hd]

theorem sizeViolation_true {cfg : LimitConfiguration} {i : TradeIntent} {n : ℚ}
    (hopen : isOpen i.action = true) (hn : i.notional = some n)
    (h : cfg.max_single_trade < n) : sizeViolation cfg i = true := by
  have hd : decide (cfg.max_single_trade < n) = true := decide_eq_true h
  unfold sizeViolation
  rw [hopen, hn]
  simp [hd]

theorem sizeViolation_false_of_le {cfg : LimitConfiguration} {i : TradeIntent} {n : ℚ}
    (hn : i.notional = some n) (h : n ≤ cfg.max_single_trade) :
    sizeViolation cfg i = false := by
  have hd : decide (cfg.max_single_trade < n) = false := decide_eq_false (not_lt.mpr h)
  unfold sizeViolation
  rw [hn]
  simp [hd]

theorem confirmGate_true {cfg : LimitConfiguration} {i : TradeIntent} {n : ℚ}
    (hopen : isOpen i.action = true) (hn : i.notional = some n)
    (h : cfg.confirm_threshold ≤ n) : confirmGate cfg i = true := by
  have hd : decide (cfg.confirm_threshold ≤ n) = true := decide_eq_true h
  unfold confirmGate
  rw [hopen, hn]
  simp [hd]

/-- Claim C1 counterexample: no submission through the command input ever
yields a request whose confirm field is true — `CommandInput.handleSubmit`
calls `onSubmit(command)` without a confirm argument, and
`handleCommandSubmit` defaults the missing value to `false`. -/
theorem C1_counterexample :
    ¬ ∃ (cmd : String) (loading : Bool) (keys : Option ApiKeys) (req : CommandRequest),
        commandInputRequest cmd loading keys = some req ∧ req.confirm = true := by
  rintro ⟨cmd, loading, keys, req, hreq, hconf⟩
  unfold commandInputRequest CommandInput.handleSubmit at hreq
  split at hreq
  · simp only [Option.map_some', Option.some.injEq] at hreq
    rw [← hreq] at hconf
    simp [requestBody] at hconf
  · simp at hreq

/-- Claim C1 (amended): every command request built from a submission
through the command input carries a boolean confirm flag, and that flag is
always false — `CommandInput.handleSubmit` never passes a confirm value,
so `handleCommandSubmit`'s default of false is always used. -/
theorem C1_confirm_always_false :
    ∀ (cmd : String) (loading : Bool) (keys : Option ApiKeys) (req : CommandRequest),
      commandInputRequest cmd loading keys = some req → req.confirm = false := by
  intro cmd loading keys req hreq
  unfold commandInputRequest CommandInput.handleSubmit at hreq
  split at hreq
  · simp only [Option.map_some', Option.some.injEq] at hreq
    rw [← hreq]
    rfl
  · simp at hreq

/-- Witness for C1: a concrete submission produces a request, and its
confirm field is false. -/
theorem C1_confirm_always_false_witness :
    commandInputRequest "open long BTC 100 USDT" false none =
      some { command := "open long BTC 100 USDT", confirm := false, api_keys := none } ∧
    ({ command := "open long BTC 100 USDT", confirm := false, api_keys := none } :
        CommandRequest).confirm = false := by
  refine ⟨by decide, ?_⟩
  exact C1_confirm_always_false "open long BTC 100 USDT" false none _ (by decide)

/-- Claim C9: in `handleCommandSubmit`, the post-command refresh guard
evaluates as `(data.success AND action includes 'open') OR (action includes
'close')`, so the reload fires for a close action even when success is
false, while an open action needs success to be true. -/
theorem C9_refresh_guard :
    ∀ (msgs : List Message) (d : CommandResponse),
      (handleCommandResponse msgs d).1 = msgs ++ [botMessageOf d] ∧
      (handleCommandResponse msgs d).2 =
        ((d.success && intentActionIncludes d "open") || intentActionIncludes d "close") ∧
      (intentActionIncludes d "close" = true → (handleCommandResponse msgs d).2 = true) ∧
      (d.success = false → intentActionIncludes d "close" = false →
        (handleCommandResponse msgs d).2 = false) := by
  intro msgs d
  refine ⟨rfl, rfl, ?_, ?_⟩
  · intro hc
    simp [handleCommandResponse, hc]
  · intro hs hc
    simp [handleCommandResponse, hs, hc]

/-- Witness for C9: a failed close command still schedules the reload, and
a failed open command does not. -/
theorem C9_refresh_guard_witness :
    (handleCommandResponse []
      { success := false, message := "close failed", needs_confirmation := none,
        intent := some { action := some "close_position" } }).2 = true ∧
    (handleCommandResponse []
      { success := false, message := "open failed", needs_confirmation := none,
        intent := some { action := some "open_long" } }).2 = false := by
  constructor
  · exact (C9_refresh_guard [] _).2.2.1 (by decide)
  · exact (C9_refresh_guard [] _).2.2.2 rfl (by decide)

/-- Claim C10: `ApiKeysModal.handleSave` calls `onSave` only when both
resolved AsterDEX credentials are non-empty (each resolved as the text
field if non-empty, else the corresponding stored key); when either
resolves empty it returns without calling `onSave` or `onClose`, leaving
the stored keys and the modal's open state unchanged. -/
theorem C10_handleSave :
    ∀ (akey asec okey qkey dkey : String) (cur : Option ApiKeys) (st : ModalState),
      (jsOrS akey (jsOrS ((cur.map (fun k => k.aster_api_key)).getD "") "") = "" ∨
       jsOrS asec (jsOrS ((cur.map (fun k => k.aster_api_secret)).getD "") "") = "" →
        ApiKeysModal.handleSave akey asec okey qkey dkey cur st = (st, none)) ∧
      (∀ fk fs : String,
        fk = jsOrS akey (jsOrS ((cur.map (fun k => k.aster_api_key)).getD "") "") →
        fs = jsOrS asec (jsOrS ((cur.map (fun k => k.aster_api_secret)).getD "") "") →
        ¬ fk = "" → ¬ fs = "" →
        ApiKeysModal.handleSave akey asec okey qkey dkey cur st =
          ({ storedKeys := some { aster_api_key := fk,
                                  aster_api_secret := fs,
                                  openai_api_key := okey,
                                  qwen_api_key := some qkey,
                                  deepseek_api_key := some dkey },
             isOpen := false },
            some { aster_api_key := fk,
                   aster_api_secret := fs,
                   openai_api_key := okey,
                   qwen_api_key := some qkey,
                   deepseek_api_key := some dkey })) := by
  intro akey asec okey qkey dkey cur st
  constructor
  · intro h
    unfold ApiKeysModal.handleSave
    rw [if_pos h]
  · intro fk fs hfk hfs hk hs
    unfold ApiKeysModal.handleSave
    rw [if_neg (by rw [← hfk, ← hfs]; tauto)]
    rw [← hfk, ← hfs]

/-- Witness for C10: with empty fields and no stored keys the state is
unchanged and nothing is saved; with non-empty fields the resolved keys
are saved and the modal closes. -/
theorem C10_handleSave_witness :
    ApiKeysModal.handleSave "" "" "" "" "" none { storedKeys := none, isOpen := true } =
      ({ storedKeys := none, isOpen := true }, none) ∧
    ApiKeysModal.handleSave "k1" "s1" "o" "q" "d" none { storedKeys := none, isOpen := true } =
      ({ storedKeys := some { aster_api_key := "k1",
                              aster_api_secret := "s1",
                              openai_api_key := "o",
                              qwen_api_key := some "q",
                              deepseek_api_key := some "d" },
         isOpen := false },
        some { aster_api_key := "k1",
               aster_api_secret := "s1",
               openai_api_key := "o",
               qwen_api_key := some "q",
               deepseek_api_key := some "d" }) := by
  constructor
  · exact (C10_handleSave "" "" "" "" "" none _).1 (Or.inl (by decide))
  · exact (C10_handleSave "k1" "s1" "o" "q" "d" none _).2 "k1" "s1" (by decide) (by decide)
      (by decide) (by decide)

theorem rollover_of_day_eq {today : ℕ} {e : LedgerEntry} (h : e.day = today) :
    rollover today e = e := by
  unfold rollover
  rw [if_pos h]

theorem applyOp_day {today : ℕ} {e : LedgerEntry} (op : LedgerOp) (h : e.day = today) :
    (applyOp today e op).day = today := by
  cases op with
  | record delta => simp [applyOp, record_execution, rollover_of_day_eq h, h]
  | get => simp [applyOp, rollover_of_day_eq h, h]

theorem applyOp_trades_le {today : ℕ} {e : LedgerEntry} (op : LedgerOp) (h : e.day = today) :
    e.trades_executed ≤ (applyOp today e op).trades_executed := by
  cases op with
  | record delta =>
    simp [applyOp, record_execution, rollover_of_day_eq h]
  | get => simp [applyOp, rollover_of_day_eq h]

theorem applyOp_loss_le {today : ℕ} {e : LedgerEntry} (op : LedgerOp) (h : e.day = today) :
    e.realized_loss ≤ (applyOp today e op).realized_loss := by
  cases op with
  | record delta =>
    simp only [applyOp, record_execution, rollover_of_day_eq h]
    have : (0 : ℚ) ≤ max 0 (-delta) := le_max_left 0 (-delta)
    linarith
  | get => simp [applyOp, rollover_of_day_eq h]

theorem runOps_bounds {today : ℕ} :
    ∀ (ops : List LedgerOp) (e : LedgerEntry), e.day = today →
      e.trades_executed ≤ (runOps today e ops).trades_executed ∧
      e.realized_loss ≤ (runOps today e ops).realized_loss ∧
      (runOps today e ops).day = today := by
  intro ops
  induction ops with
  | nil => intro e h; exact ⟨le_refl _, le_refl _, h⟩
  | cons op ops ih =>
    intro e h
    have hstep := ih (applyOp today e op) (applyOp_day op h)
    refine ⟨le_trans (applyOp_trades_le op h) ?_, le_trans (applyOp_loss_le op h) ?_, ?_⟩
    · exact hstep.1
    · exact hstep.2.1
    · exact hstep.2.2

/-- Claim C5: within one UTC day, `record_execution` increments
`trades_executed` by exactly one and `realized_loss` by `max 0 (-delta)`
(a gain leaves the loss unchanged), and both counters are monotonically
non-decreasing across every sequence of ledger operations. -/
theorem C5_ledger_ratchet :
    ∀ (today : ℕ) (e : LedgerEntry) (delta : ℚ),
      e.day = today →
      (record_execution today e delta).trades_executed = e.trades_executed + 1 ∧
      (record_execution today e delta).realized_loss = e.realized_loss + max 0 (-delta) ∧
      (0 < delta → (record_execution today e delta).realized_loss = e.realized_loss) ∧
      (∀ ops : List LedgerOp,
        e.trades_executed ≤ (runOps today e ops).trades_executed ∧
        e.realized_loss ≤ (runOps today e ops).realized_loss) := by
  intro today e delta h
  refine ⟨?_, ?_, ?_, ?_⟩
  · simp [record_execution, rollover_of_day_eq h]
  · simp [record_execution, rollover_of_day_eq h]
  · intro hpos
    have hmax : max 0 (-delta) = 0 := max_eq_left (by linarith)
    simp [record_execution, rollover_of_day_eq h, hmax]
  · intro ops
    exact ⟨(runOps_bounds ops e h).1, (runOps_bounds ops e h).2.1⟩

/-- Witness for C5: a losing execution adds the loss and bumps the count;
a gaining execution leaves the loss untouched. -/
theorem C5_ledger_ratchet_witness :
    (record_execution 7 { trades_executed := 3, realized_loss := 10, day := 7 }
        (-4)).trades_executed = 3 + 1 ∧
    (record_execution 7 { trades_executed := 3, realized_loss := 10, day := 7 }
        (-4)).realized_loss = 10 + max 0 (-(-4 : ℚ)) ∧
    (record_execution 7 { trades_executed := 3, realized_loss := 10, day := 7 }
        2).realized_loss = 10 := by
  refine ⟨(C5_ledger_ratchet 7 _ (-4) rfl).1, (C5_ledger_ratchet 7 _ (-4) rfl).2.1, ?_⟩
  exact (C5_ledger_ratchet 7 _ 2 rfl).2.2.1 (by norm_num)

/-- Claim C6: when the adapter call of an Approved decision fails, the
Execution Dispatcher leaves the Daily Usage Ledger exactly as it was and
appends a Failure audit record. -/
theorem C6_dispatcher_failure_atomic :
    ∀ (today : ℕ) (account : String) (d : RiskDecision) (detail : String)
      (ledger : LedgerEntry) (audit : List AuditRecord) (now : ℕ),
      d.outcome = .approved →
      (execute today account d (.failure detail) ledger audit now).1 = ledger ∧
      (execute today account d (.failure detail) ledger audit now).2.1 =
        audit ++ [{ timestamp := now, account := account, intent := d.intent,
                    decision := d, outcome := .failure detail }] ∧
      (execute today account d (.failure detail) ledger audit now).2.2 = .failed detail := by
  intro today account d detail ledger audit now _
  exact ⟨rfl, rfl, rfl⟩

/-- Witness for C6: a concrete failed adapter call leaves a concrete
ledger untouched and appends the failure record. -/
theorem C6_dispatcher_failure_atomic_witness :
    (execute 7 "acct-1"
        { outcome := .approved, reason := none,
          intent := { action := .open_long, symbol := "BTCUSDT", notional := some 100,
                      leverage := some 10, raw_text := "open long BTC" } }
        (.failure "network timeout")
        { trades_executed := 3, realized_loss := 10, day := 7 } [] 99).1 =
      { trades_executed := 3, realized_loss := 10, day := 7 } ∧
    (execute 7 "acct-1"
        { outcome := .approved, reason := none,
          intent := { action := .open_long, symbol := "BTCUSDT", notional := some 100,
                      leverage := some 10, raw_text := "open long BTC" } }
        (.failure "network timeout")
        { trades_executed := 3, realized_loss := 10, day := 7 } [] 99).2.1 =
      [{ timestamp := 99, account := "acct-1",
         intent := { action := .open_long, symbol := "BTCUSDT", notional := some 100,
                     leverage := some 10, raw_text := "open long BTC" },
         decision := { outcome := .approved, reason := none,
                       intent := { action := .open_long, symbol := "BTCUSDT",
                                   notional := some 100, leverage := some 10,
                                   raw_text := "open long BTC" } },
         outcome := .failure "network timeout" }] := by
  refine ⟨(C6_dispatcher_failure_atomic 7 "acct-1" _ "network timeout" _ [] 99 rfl).1, ?_⟩
  exact (C6_dispatcher_failure_atomic 7 "acct-1" _ "network timeout" _ [] 99 rfl).2.1

/-- Claim C2: an open intent with a notional strictly above
`max_single_trade` is Rejected with `TradeSizeExceeded` for every confirm
flag and every registry state (when the earlier daily and leverage gates
pass), and no confirmation path ever yields Approved for such an intent,
whatever the ledger state. -/
theorem C2_trade_size_hard_ceiling :
    ∀ (cfg : LimitConfiguration) (ttl : ℕ) (intent : TradeIntent) (n : ℚ),
      isOpen intent.action = true →
      intent.notional = some n →
      cfg.max_single_trade < n →
      (∀ (ledger : LedgerEntry) (R : Registry) (account : String) (confirm : Bool) (now : ℕ),
          ledger.realized_loss < cfg.max_daily_loss →
          ledger.trades_executed < cfg.max_daily_trades →
          (∀ l, intent.leverage = some l → l ≤ cfg.max_leverage) →
          (evaluate cfg ttl ledger R account intent confirm now).1 =
            { outcome := .rejected, reason := some .TradeSizeExceeded, intent := intent }) ∧
      (∀ (ledger : LedgerEntry) (R : Registry) (account : String) (confirm : Bool) (now : ℕ),
          ¬ (evaluate cfg ttl ledger R account intent confirm now).1.outcome = .approved) := by
  intro cfg ttl intent n hopen hn hgt
  constructor
  · intro ledger R account confirm now hloss htr hlev
    unfold evaluate
    rw [if_neg (isOpen_ne_query hopen),
      if_neg (by rw [lossGate_false intent.action hloss]; exact Bool.false_ne_true),
      if_neg (by rw [countGate_false intent.action htr]; exact Bool.false_ne_true),
      if_neg (by rw [leverageViolation_false hlev]; exact Bool.false_ne_true),
      if_pos (sizeViolation_true hopen hn hgt)]
  · intro ledger R account confirm now
    unfold evaluate
    rw [if_neg (isOpen_ne_query hopen)]
    by_cases h2 : lossGate cfg ledger intent.action = true
    · rw [if_pos h2]; simp
    · rw [if_neg h2]
      by_cases h3 : countGate cfg ledger intent.action = true
      · rw [if_pos h3]; simp
      · rw [if_neg h3]
        by_cases h4 : leverageViolation cfg intent = true
        · rw [if_pos h4]; simp
        · rw [if_neg h4, if_pos (sizeViolation_true hopen hn hgt)]
          simp

/-- Witness for C2: with the §8 example limits, an open-long of notional
1500 is Rejected with TradeSizeExceeded even with confirm set. -/
theorem C2_trade_size_hard_ceiling_witness :
    (evaluate { max_single_trade := 1000, max_leverage := 20, confirm_threshold := 500,
                max_daily_trades := 50, max_daily_loss := 5000 } 120
        { trades_executed := 0, realized_loss := 0, day := 7 } [] "acct-1"
        { action := .open_long, symbol := "BTCUSDT", notional := some 1500,
          leverage := some 5, raw_text := "open long BTC 1500" } true 0).1 =
      { outcome := .rejected, reason := some .TradeSizeExceeded,
        intent := { action := .open_long, symbol := "BTCUSDT", notional := some 1500,
                    leverage := some 5, raw_text := "open long BTC 1500" } } := by
  refine (C2_trade_size_hard_ceiling _ 120 _ 1500 ?_ ?_ ?_).1
    _ [] "acct-1" true 0 ?_ ?_ ?_
  · rfl
  · rfl
  · norm_num
  · norm_num
  · norm_num
  · exact fun l hl => by cases hl; norm_num

/-- Claim C3: the confirmation floor is inclusive — an open intent with
notional exactly `confirm_threshold`, first submitted with the other
limits satisfied, gets RequiresConfirmation — and the single-trade
ceiling is inclusive: notional exactly `max_single_trade` is never
Rejected with TradeSizeExceeded. -/
theorem C3_boundary_tie_break :
    ∀ (cfg : LimitConfiguration) (ttl : ℕ) (intent : TradeIntent),
      (cfg.confirm_threshold ≤ cfg.max_single_trade →
        isOpen intent.action = true →
        intent.notional = some cfg.confirm_threshold →
        ∀ (ledger : LedgerEntry) (R : Registry) (account : String) (now : ℕ),
          ledger.realized_loss < cfg.max_daily_loss →
          ledger.trades_executed < cfg.max_daily_trades →
          (∀ l, intent.leverage = some l → l ≤ cfg.max_leverage) →
          (evaluate cfg ttl ledger R account intent false now).1 =
            { outcome := .requiresConfirmation, reason := some .ConfirmationRequired,
              intent := intent }) ∧
      (intent.notional = some cfg.max_single_trade →
        ∀ (ledger : LedgerEntry) (R : Registry) (account : String) (confirm : Bool) (now : ℕ),
          ¬ ((evaluate cfg ttl ledger R account intent confirm now).1.outcome = .rejected ∧
             (evaluate cfg ttl ledger R account intent confirm now).1.reason =
               some .TradeSizeExceeded)) := by
  intro cfg ttl intent
  constructor
  · intro hct hopen hn ledger R account now hloss htr hlev
    unfold evaluate
    rw [if_neg (isOpen_ne_query hopen),
      if_neg (by rw [lossGate_false intent.action hloss]; exact Bool.false_ne_true),
      if_neg (by rw [countGate_false intent.action htr]; exact Bool.false_ne_true),
      if_neg (by rw [leverageViolation_false hlev]; exact Bool.false_ne_true),
      if_neg (by rw [sizeViolation_false_of_le hn hct]; exact Bool.false_ne_true),
      if_pos (confirmGate_true hopen hn (le_refl _))]
    simp
  · intro hn ledger R account confirm now
    unfold evaluate
    by_cases h1 : intent.action = .query
    · rw [if_pos h1]; simp
    · rw [if_neg h1]
      by_cases h2 : lossGate cfg ledger intent.action = true
      · rw [if_pos h2]; simp
      · rw [if_neg h2]
        by_cases h3 : countGate cfg ledger intent.action = true
        · rw [if_pos h3]; simp
        · rw [if_neg h3]
          by_cases h4 : leverageViolation cfg intent = true
          · rw [if_pos h4]; simp
          · rw [if_neg h4,
              if_neg (by rw [sizeViolation_false_of_le hn (le_refl _)]
                         exact Bool.false_ne_true)]
            by_cases h6 : confirmGate cfg intent = true
            · rw [if_pos h6]
              by_cases h7 : confirm = true
              · rw [if_pos h7]
                rcases htake : take R (account, signatureOf intent) now ttl with ⟨o, R1⟩
                cases o <;> simp
              · rw [if_neg h7]; simp
            · rw [if_neg h6]; simp

/-- Witness for C3: with the §8 example limits, a first-submission open of
exactly 500 requires confirmation, and an open of exactly 1000 is not
size-rejected. -/
theorem C3_boundary_tie_break_witness :
    (evaluate { max_single_trade := 1000, max_leverage := 20, confirm_threshold := 500,
                max_daily_trades := 50, max_daily_loss := 5000 } 120
        { trades_executed := 0, realized_loss := 0, day := 7 } [] "acct-1"
        { action := .open_long, symbol := "BTCUSDT", notional := some 500,
          leverage := some 5, raw_text := "open long BTC 500" } false 0).1 =
      { outcome := .requiresConfirmation, reason := some .ConfirmationRequired,
        intent := { action := .open_long, symbol := "BTCUSDT", notional := some 500,
                    leverage := some 5, raw_text := "open long BTC 500" } } ∧
    ¬ ((evaluate { max_single_trade := 1000, max_leverage := 20, confirm_threshold := 500,
                   max_daily_trades := 50, max_daily_loss := 5000 } 120
          { trades_executed := 0, realized_loss := 0, day := 7 } [] "acct-1"
          { action := .open_long, symbol := "BTCUSDT", notional := some 1000,
            leverage := some 5, raw_text := "open long BTC 1000" } false 0).1.outcome =
        .rejected ∧
       (evaluate { max_single_trade := 1000, max_leverage := 20, confirm_threshold := 500,
                   max_daily_trades := 50, max_daily_loss := 5000 } 120
          { trades_executed := 0, realized_loss := 0, day := 7 } [] "acct-1"
          { action := .open_long, symbol := "BTCUSDT", notional := some 1000,
            leverage := some 5, raw_text := "open long BTC 1000" } false 0).1.reason =
        some .TradeSizeExceeded) := by
  constructor
  · refine (C3_boundary_tie_break _ 120 _).1 ?_ ?_ ?_ _ [] "acct-1" 0 ?_ ?_ ?_
    · norm_num
    · rfl
    · rfl
    · norm_num
    · norm_num
    · exact fun l hl => by cases hl; norm_num
  · refine (C3_boundary_tie_break _ 120 _).2 ?_ _ [] "acct-1" false 0
    rfl

/-- Claim C4: once `trades_executed_today` has reached `max_daily_trades`,
every position-changing intent of the account is Rejected with
`DailyTradeCountExceeded` (the daily-loss gate not having tripped first),
while every query intent is still Approved in the same state. -/
theorem C4_daily_count_boundary :
    ∀ (cfg : LimitConfiguration) (ttl : ℕ) (ledger : LedgerEntry),
      ledger.trades_executed = cfg.max_daily_trades →
      (∀ (R : Registry) (account : String) (intent : TradeIntent) (confirm : Bool) (now : ℕ),
          isPositionChanging intent.action = true →
          ledger.realized_loss < cfg.max_daily_loss →
          (evaluate cfg ttl ledger R account intent confirm now).1 =
            { outcome := .rejected, reason := some .DailyTradeCountExceeded,
              intent := intent }) ∧
      (∀ (R : Registry) (account : String) (intent : TradeIntent) (confirm : Bool) (now : ℕ),
          intent.action = .query →
          (evaluate cfg ttl ledger R account intent confirm now).1 =
            { outcome := .approved, reason := none, intent := intent }) := by
  intro cfg ttl ledger htr
  constructor
  · intro R account intent confirm now hpc hloss
    unfold evaluate
    rw [if_neg (isPositionChanging_ne_query hpc),
      if_neg (by rw [lossGate_false intent.action hloss]; exact Bool.false_ne_true),
      if_pos (countGate_true hpc (le_of_eq htr.symm))]
  · intro R account intent confirm now hq
    unfold evaluate
    rw [if_pos hq]

/-- Witness for C4: with the §8 example limits and 50 trades already
executed, an open-short of 50 is Rejected with DailyTradeCountExceeded
and a query is Approved. -/
theorem C4_daily_count_boundary_witness :
    (evaluate { max_single_trade := 1000, max_leverage := 20, confirm_threshold := 500,
                max_daily_trades := 50, max_daily_loss := 5000 } 120
        { trades_executed := 50, realized_loss := 0, day := 7 } [] "acct-1"
        { action := .open_short, symbol := "ETHUSDT", notional := some 50,
          leverage := some 5, raw_text := "open short ETH 50" } false 0).1 =
      { outcome := .rejected, reason := some .DailyTradeCountExceeded,
        intent := { action := .open_short, symbol := "ETHUSDT", notional := some 50,
                    leverage := some 5, raw_text := "open short ETH 50" } } ∧
    (evaluate { max_single_trade := 1000, max_leverage := 20, confirm_threshold := 500,
                max_daily_trades := 50, max_daily_loss := 5000 } 120
        { trades_executed := 50, realized_loss := 0, day := 7 } [] "acct-1"
        { action := .query, symbol := "ETHUSDT", notional := none,
          leverage := none, raw_text := "show positions" } false 0).1 =
      { outcome := .approved, reason := none,
        intent := { action := .query, symbol := "ETHUSDT", notional := none,
                    leverage := none, raw_text := "show positions" } } := by
  constructor
  · exact (C4_daily_count_boundary _ 120 _ rfl).1 [] "acct-1" _ false 0 rfl (by norm_num)
  · exact (C4_daily_count_boundary _ 120 _ rfl).2 [] "acct-1" _ false 0 rfl

theorem lookupKey_removeKey (R : Registry) (k : RegKey) :
    lookupKey (removeKey R k) k = none := by
  unfold lookupKey removeKey
  rw [Option.map_eq_none', List.find?_eq_none]
  intro x hx
  have hm := (List.mem_filter.mp hx).2
  simp only [decide_eq_true_eq] at hm ⊢
  exact hm

/-- Claim C7: a pending confirmation whose time-to-live has elapsed
behaves exactly like one that never existed — `take` returns absent and
removes it, and a confirmed resubmission gets RequiresConfirmation with a
freshly upserted entry, identical to evaluating against a registry without
the entry. -/
theorem C7_expired_confirmation_round_trip :
    ∀ (cfg : LimitConfiguration) (ttl : ℕ) (ledger : LedgerEntry) (R : Registry)
      (account : String) (intent : TradeIntent) (now : ℕ) (e : PendingConfirmation) (n : ℚ),
      isOpen intent.action = true →
      intent.notional = some n →
      cfg.confirm_threshold ≤ n →
      n ≤ cfg.max_single_trade →
      ledger.realized_loss < cfg.max_daily_loss →
      ledger.trades_executed < cfg.max_daily_trades →
      (∀ l, intent.leverage = some l → l ≤ cfg.max_leverage) →
      lookupKey R (account, signatureOf intent) = some e →
      ttl < now - e.created_at →
      take R (account, signatureOf intent) now ttl =
        (none, removeKey R (account, signatureOf intent)) ∧
      evaluate cfg ttl ledger R account intent true now =
        evaluate cfg ttl ledger (removeKey R (account, signatureOf intent))
          account intent true now ∧
      (evaluate cfg ttl ledger R account intent true now).1 =
        { outcome := .requiresConfirmation, reason := some .ConfirmationRequired,
          intent := intent } := by
  intro cfg ttl ledger R account intent now e n hopen hn hcl hcu hloss htr hlev hlook hexp
  have hkey : take R (account, signatureOf intent) now ttl =
      (none, removeKey R (account, signatureOf intent)) := by
    unfold take
    rw [hlook]
    exact if_neg (not_le.mpr hexp)
  have htake2 : take (removeKey R (account, signatureOf intent))
      (account, signatureOf intent) now ttl =
      (none, removeKey R (account, signatureOf intent)) := by
    unfold take
    rw [lookupKey_removeKey]
  have heval : evaluate cfg ttl ledger R account intent true now =
      ({ outcome := .requiresConfirmation, reason := some .ConfirmationRequired,
         intent := intent },
        put (removeKey R (account, signatureOf intent)) (account, signatureOf intent)
          { intent := intent, created_at := now }) := by
    unfold evaluate
    rw [if_neg (isOpen_ne_query hopen),
      if_neg (by rw [lossGate_false intent.action hloss]; exact Bool.false_ne_true),
      if_neg (by rw [countGate_false intent.action htr]; exact Bool.false_ne_true),
      if_neg (by rw [leverageViolation_false hlev]; exact Bool.false_ne_true),
      if_neg (by rw [sizeViolation_false_of_le hn hcu]; exact Bool.false_ne_true),
      if_pos (confirmGate_true hopen hn hcl), if_pos rfl, hkey]
  have heval2 : evaluate cfg ttl ledger (removeKey R (account, signatureOf intent))
      account intent true now =
      ({ outcome := .requiresConfirmation, reason := some .ConfirmationRequired,
         intent := intent },
        put (removeKey R (account, signatureOf intent)) (account, signatureOf intent)
          { intent := intent, created_at := now }) := by
    unfold evaluate
    rw [if_neg (isOpen_ne_query hopen),
      if_neg (by rw [lossGate_false intent.action hloss]; exact Bool.false_ne_true),
      if_neg (by rw [countGate_false intent.action htr]; exact Bool.false_ne_true),
      if_neg (by rw [leverageViolation_false hlev]; exact Bool.false_ne_true),
      if_neg (by rw [sizeViolation_false_of_le hn hcu]; exact Bool.false_ne_true),
      if_pos (confirmGate_true hopen hn hcl), if_pos rfl, htake2]
  refine ⟨hkey, ?_, ?_⟩
  · rw [heval, heval2]
  · rw [heval]

/-- Witness for C7: a concrete expired entry (created at 0, taken at 200
with a 120 time-to-live) is reported absent and removed, and the confirmed
resubmission still requires confirmation. -/
theorem C7_expired_confirmation_round_trip_witness :
    take exampleRegistry700 ("acct-1", signatureOf exampleIntent700) 200 120 =
      (none, removeKey exampleRegistry700 ("acct-1", signatureOf exampleIntent700)) ∧
    (evaluate exampleLimits 120 { trades_executed := 0, realized_loss := 0, day := 7 }
        exampleRegistry700 "acct-1" exampleIntent700 true 200).1 =
      { outcome := .requiresConfirmation, reason := some .ConfirmationRequired,
        intent := exampleIntent700 } := by
  constructor
  · refine (C7_expired_confirmation_round_trip exampleLimits 120
      { trades_executed := 0, realized_loss := 0, day := 7 } exampleRegistry700
      "acct-1" exampleIntent700 200 examplePending700 700
      ?_ ?_ ?_ ?_ ?_ ?_ ?_ ?_ ?_).1
    · rfl
    · rfl
    · norm_num [exampleLimits]
    · norm_num [exampleLimits]
    · norm_num [exampleLimits]
    · norm_num [exampleLimits]
    · exact fun l hl => by cases hl; norm_num [exampleLimits]
    · decide
    · norm_num [examplePending700]
  · refine (C7_expired_confirmation_round_trip exampleLimits 120
      { trades_executed := 0, realized_loss := 0, day := 7 } exampleRegistry700
      "acct-1" exampleIntent700 200 examplePending700 700
      ?_ ?_ ?_ ?_ ?_ ?_ ?_ ?_ ?_).2.2
    · rfl
    · rfl
    · norm_num [exampleLimits]
    · norm_num [exampleLimits]
    · norm_num [exampleLimits]
    · norm_num [exampleLimits]
    · exact fun l hl => by cases hl; norm_num [exampleLimits]
    · decide
    · norm_num [examplePending700]

theorem sizeViolation_false_of_eligible {cfg : LimitConfiguration} {c : Command}
    (hinv : cfg.confirm_threshold ≤ cfg.max_single_trade)
    (hel : eligibleCommand cfg c) : sizeViolation cfg c.intent = false := by
  unfold sizeViolation
  cases ho : isOpen c.intent.action
  · simp
  · cases hn : c.intent.notional with
    | none => simp
    | some n =>
      have hlt := hel.2.2 n hn ho
      have hd : decide (cfg.max_single_trade < n) = false :=
        decide_eq_false (not_lt.mpr (le_of_lt (lt_of_lt_of_le hlt hinv)))
      simp [hd]

theorem confirmGate_false_of_eligible {cfg : LimitConfiguration} {c : Command}
    (hel : eligibleCommand cfg c) : confirmGate cfg c.intent = false := by
  unfold confirmGate
  cases ho : isOpen c.intent.action
  · simp
  · cases hn : c.intent.notional with
    | none => simp
    | some n =>
      have hlt := hel.2.2 n hn ho
      have hd : decide (cfg.confirm_threshold ≤ n) = false :=
        decide_eq_false (not_le.mpr hlt)
      simp [hd]

theorem evaluate_approved_of_eligible {cfg : LimitConfiguration} {ttl : ℕ}
    {ledger : LedgerEntry} {R : Registry} {account : String} {c : Command} {now : ℕ}
    (hinv : cfg.confirm_threshold ≤ cfg.max_single_trade)
    (hel : eligibleCommand cfg c)
    (hloss : ledger.realized_loss < cfg.max_daily_loss)
    (htr : ledger.trades_executed < cfg.max_daily_trades) :
    evaluate cfg ttl ledger R account c.intent c.confirm now =
      ({ outcome := .approved, reason := none, intent := c.intent }, R) := by
  unfold evaluate
  rw [if_neg (isPositionChanging_ne_query hel.1),
    if_neg (by rw [lossGate_false c.intent.action hloss]; exact Bool.false_ne_true),
    if_neg (by rw [countGate_false c.intent.action htr]; exact Bool.false_ne_true),
    if_neg (by rw [leverageViolation_false hel.2.1]; exact Bool.false_ne_true),
    if_neg (by rw [sizeViolation_false_of_eligible hinv hel]; exact Bool.false_ne_true),
    if_neg (by rw [confirmGate_false_of_eligible hel]; exact Bool.false_ne_true)]

theorem processCommand_executed {cfg : LimitConfiguration} {ttl today now : ℕ}
    {account : String} {ledger : LedgerEntry} {R : Registry} {c : Command}
    (hinv : cfg.confirm_threshold ≤ cfg.max_single_trade)
    (hel : eligibleCommand cfg c)
    (hday : ledger.day = today)
    (hloss : ledger.realized_loss < cfg.max_daily_loss)
    (htr : ledger.trades_executed < cfg.max_daily_trades) :
    processCommand cfg ttl today now account (ledger, R) c =
      (({ trades_executed := ledger.trades_executed + 1,
          realized_loss := ledger.realized_loss, day := today }, R), .executed) := by
  unfold processCommand
  rw [evaluate_approved_of_eligible hinv hel hloss htr]
  simp [record_execution, rollover_of_day_eq hday, hday]

theorem evaluate_count_rejected_of_eligible {cfg : LimitConfiguration} {ttl : ℕ}
    {ledger : LedgerEntry} {R : Registry} {account : String} {c : Command} {now : ℕ}
    (hel : eligibleCommand cfg c)
    (hloss : ledger.realized_loss < cfg.max_daily_loss)
    (htr : cfg.max_daily_trades ≤ ledger.trades_executed) :
    evaluate cfg ttl ledger R account c.intent c.confirm now =
      ({ outcome := .rejected, reason := some .DailyTradeCountExceeded,
         intent := c.intent }, R) := by
  unfold evaluate
  rw [if_neg (isPositionChanging_ne_query hel.1),
    if_neg (by rw [lossGate_false c.intent.action hloss]; exact Bool.false_ne_true),
    if_pos (countGate_true hel.1 htr)]

theorem processCommand_count_rejected {cfg : LimitConfiguration} {ttl today now : ℕ}
    {account : String} {ledger : LedgerEntry} {R : Registry} {c : Command}
    (hel : eligibleCommand cfg c)
    (hloss : ledger.realized_loss < cfg.max_daily_loss)
    (htr : cfg.max_daily_trades ≤ ledger.trades_executed) :
    processCommand cfg ttl today now account (ledger, R) c =
      ((ledger, R), .rejectedWith (some .DailyTradeCountExceeded)) := by
  unfold processCommand
  rw [evaluate_count_rejected_of_eligible hel hloss htr]

theorem runCommands_count {cfg : LimitConfiguration} {ttl today now : ℕ} {account : String}
    (hinv : cfg.confirm_threshold ≤ cfg.max_single_trade) :
    ∀ (cs : List Command) (ledger : LedgerEntry) (R : Registry),
      (∀ c ∈ cs, eligibleCommand cfg c) →
      ledger.day = today →
      ledger.realized_loss < cfg.max_daily_loss →
      ledger.trades_executed ≤ cfg.max_daily_trades →
      (runCommands cfg ttl today now account (ledger, R) cs).2.count .executed =
          min cs.length (cfg.max_daily_trades - ledger.trades_executed) ∧
      (runCommands cfg ttl today now account (ledger, R) cs).2.count
          (.rejectedWith (some .DailyTradeCountExceeded)) =
          cs.length - (cfg.max_daily_trades - ledger.trades_executed) ∧
      (runCommands cfg ttl today now account (ledger, R) cs).1.1.trades_executed =
          min (ledger.trades_executed + cs.length) cfg.max_daily_trades ∧
      ∀ o ∈ (runCommands cfg ttl today now account (ledger, R) cs).2,
        o = .executed ∨ o = .rejectedWith (some .DailyTradeCountExceeded) := by
  intro cs
  induction cs with
  | nil =>
    intro ledger R hall hday hloss htr
    refine ⟨?_, ?_, ?_, ?_⟩
    · simp [runCommands]
    · simp [runCommands]
    · simp only [runCommands, List.length_nil]
      omega
    · intro o ho
      simp [runCommands] at ho
  | cons c cs ih =>
    intro ledger R hall hday hloss htr
    have hel : eligibleCommand cfg c := hall c (List.mem_cons_self c cs)
    have hall' : ∀ x ∈ cs, eligibleCommand cfg x :=
      fun x hx => hall x (List.mem_cons_of_mem c hx)
    by_cases hlt : ledger.trades_executed < cfg.max_daily_trades
    · have hstep :=
        @processCommand_executed cfg ttl today now account ledger R c hinv hel hday hloss hlt
      have hrun : runCommands cfg ttl today now account (ledger, R) (c :: cs) =
          ((runCommands cfg ttl today now account
              ({ trades_executed := ledger.trades_executed + 1,
                 realized_loss := ledger.realized_loss, day := today }, R) cs).1,
            .executed :: (runCommands cfg ttl today now account
              ({ trades_executed := ledger.trades_executed + 1,
                 realized_loss := ledger.realized_loss, day := today }, R) cs).2) := by
        simp [runCommands, hstep]
      obtain ⟨ih1, ih2, ih3, ih4⟩ := ih
        { trades_executed := ledger.trades_executed + 1,
          realized_loss := ledger.realized_loss, day := today } R hall' rfl hloss hlt
      have e1 :
          ({ trades_executed := ledger.trades_executed + 1,
             realized_loss := ledger.realized_loss,
             day := today } : LedgerEntry).trades_executed =
            ledger.trades_executed + 1 := rfl
      rw [e1] at ih1 ih2 ih3
      rw [hrun]
      have b1 : (CommandOutcome.executed == CommandOutcome.executed) = true := rfl
      have b2 : (CommandOutcome.executed ==
          CommandOutcome.rejectedWith (some .DailyTradeCountExceeded)) = false := rfl
      refine ⟨?_, ?_, ?_, ?_⟩
      · rw [List.count_cons, b1, if_pos rfl, ih1, List.length_cons]
        omega
      · rw [List.count_cons, b2, if_neg (by exact Bool.false_ne_true), ih2, List.length_cons]
        omega
      · rw [ih3, List.length_cons]
        omega
      · intro o ho
        rcases List.mem_cons.mp ho with h | h
        · exact Or.inl h
        · exact ih4 o h
    · have htr2 : cfg.max_daily_trades ≤ ledger.trades_executed := le_of_not_lt hlt
      have hstep :=
        @processCommand_count_rejected cfg ttl today now account ledger R c hel hloss htr2
      have hrun : runCommands cfg ttl today now account (ledger, R) (c :: cs) =
          ((runCommands cfg ttl today now account (ledger, R) cs).1,
            .rejectedWith (some .DailyTradeCountExceeded) ::
              (runCommands cfg ttl today now account (ledger, R) cs).2) := by
        simp [runCommands, hstep]
      obtain ⟨ih1, ih2, ih3, ih4⟩ := ih ledger R hall' hday hloss htr
      rw [hrun]
      have b3 : (CommandOutcome.rejectedWith (some .DailyTradeCountExceeded) ==
          CommandOutcome.executed) = false := rfl
      have b4 : (CommandOutcome.rejectedWith (some .DailyTradeCountExceeded) ==
          CommandOutcome.rejectedWith (some .DailyTradeCountExceeded)) = true := rfl
      refine ⟨?_, ?_, ?_, ?_⟩
      · rw [List.count_cons, b3, if_neg (by exact Bool.false_ne_true), ih1, List.length_cons]
        omega
      · rw [List.count_cons, b4, if_pos rfl, ih2, List.length_cons]
        omega
      · rw [ih3, List.length_cons]
        omega
      · intro o ho
        rcases List.mem_cons.mp ho with h | h
        · exact Or.inr h
        · exact ih4 o h

/-- Claim C8: for N concurrent Approved-eligible position-changing
commands on one account with k remaining daily-trade slots and k < N —
every interleaving being, under the per-account atomic decide-and-reserve
discipline, some sequential order of the commands — exactly k are
Executed, the other N−k are Rejected with DailyTradeCountExceeded, and
the trade counter ends exactly at `max_daily_trades` (no overshoot, no
double counting). -/
theorem C8_concurrency_admission_bound :
    ∀ (cfg : LimitConfiguration) (ttl today now : ℕ) (account : String)
      (cs : List Command) (ledger : LedgerEntry) (R : Registry) (k : ℕ),
      cfg.confirm_threshold ≤ cfg.max_single_trade →
      (∀ c ∈ cs, eligibleCommand cfg c) →
      ledger.day = today →
      ledger.realized_loss < cfg.max_daily_loss →
      ledger.trades_executed ≤ cfg.max_daily_trades →
      k = cfg.max_daily_trades - ledger.trades_executed →
      k < cs.length →
      (runCommands cfg ttl today now account (ledger, R) cs).2.count .executed = k ∧
      (runCommands cfg ttl today now account (ledger, R) cs).2.count
        (.rejectedWith (some .DailyTradeCountExceeded)) = cs.length - k ∧
      (runCommands cfg ttl today now account (ledger, R) cs).1.1.trades_executed =
        cfg.max_daily_trades ∧
      ∀ o ∈ (runCommands cfg ttl today now account (ledger, R) cs).2,
        o = .executed ∨ o = .rejectedWith (some .DailyTradeCountExceeded) := by
  intro cfg ttl today now account cs ledger R k hinv hall hday hloss htr hk hkN
  obtain ⟨h1, h2, h3, h4⟩ := runCommands_count hinv cs ledger R hall hday hloss htr
  refine ⟨?_, ?_, ?_, h4⟩
  · omega
  · omega
  · omega

/-- Witness for C8: three eligible open commands against one remaining
daily-trade slot — one executes, two are rejected, the counter ends at
the limit. -/
theorem C8_concurrency_admission_bound_witness :
    (runCommands tightLimits 120 7 0 "acct-1"
        ({ trades_executed := 1, realized_loss := 0, day := 7 }, [])
        [exampleCommand100, exampleCommand100, exampleCommand100]).2.count .executed = 1 ∧
    (runCommands tightLimits 120 7 0 "acct-1"
        ({ trades_executed := 1, realized_loss := 0, day := 7 }, [])
        [exampleCommand100, exampleCommand100, exampleCommand100]).2.count
      (.rejectedWith (some .DailyTradeCountExceeded)) = 3 - 1 ∧
    (runCommands tightLimits 120 7 0 "acct-1"
        ({ trades_executed := 1, realized_loss := 0, day := 7 }, [])
        [exampleCommand100, exampleCommand100, exampleCommand100]).1.1.trades_executed =
      tightLimits.max_daily_trades := by
  have h := C8_concurrency_admission_bound tightLimits 120 7 0 "acct-1"
    [exampleCommand100, exampleCommand100, exampleCommand100]
    { trades_executed := 1, realized_loss := 0, day := 7 } [] 1
    (by norm_num [tightLimits])
    (by intro c hc
        simp only [List.mem_cons, List.not_mem_nil, or_false] at hc
        rcases hc with h | h | h <;> subst h <;>
          exact ⟨rfl, fun l hl => by cases hl; norm_num [tightLimits],
            fun n hn _ => by cases hn; norm_num [tightLimits]⟩)
    rfl (by norm_num [tightLimits]) (by norm_num [tightLimits])
    (by norm_num [tightLimits]) (by norm_num)
  exact ⟨h.1, h.2.1, h.2.2.1⟩

end A101
